import Mathlib

/-!
Verification development for the ambient code-quality coordinator
(`src/ambient`). The Python sources are shallowly embedded: Python `str`
values are modelled as `List Char` (a sequence of Unicode code points,
matching Python string indexing and slicing), Python `int` as `Int`,
Python lists as `List`, and fallible code as `Except`/`Option`.
Side-effecting collaborators (the git binary, the container runtime, the
HTTP client, regular-expression matching, symlink resolution) are
modelled as explicit parameters, so theorems quantify over their
behaviour.
-/

/-- Python `str` is a sequence of code points. -/
abbrev Str := List Char

/-- Embed a Lean string literal as a `Str`. -/
def pys (s : String) : Str := s.toList

/-- ASCII lowercasing of one character; models Python `str.lower` on the
ASCII inputs used by this code base. -/
def charLower (c : Char) : Char :=
  if 'A' ≤ c ∧ c ≤ 'Z' then Char.ofNat (c.toNat + 32) else c

/-- Python `s.lower()`. -/
def pyLower (s : Str) : Str := s.map charLower

/-- Python `s.strip()` (whitespace on both ends). -/
def pyTrim (s : Str) : Str :=
  ((s.dropWhile Char.isWhitespace).reverse.dropWhile Char.isWhitespace).reverse

/-- Python `s.startswith(p)`. -/
def pyStartsWith (s p : Str) : Bool := p.isPrefixOf s

/-- Python `s.endswith(p)`. -/
def pyEndsWith (s p : Str) : Bool := p.isSuffixOf s

/-- Strict lexicographic order on code points: Python `<` on `str`. -/
def strLt : Str → Str → Bool
  | [], [] => false
  | [], _ :: _ => true
  | _ :: _, [] => false
  | c :: cs, d :: ds => if c < d then true else if d < c then false else strLt cs ds

/-- Python `<=` on `str`. -/
def strLe (a b : Str) : Bool := !(strLt b a)

/-- Insert an element into a sorted list after all elements that compare
less-or-equal, preserving the relative order of equal elements. -/
def pyInsert (le : α → α → Bool) (x : α) : List α → List α
  | [] => [x]
  | y :: ys => if le y x then y :: pyInsert le x ys else x :: y :: ys

/-- Stable sort; models CPython `sorted` (a stable sort) with a boolean
less-or-equal comparison derived from the sort key. -/
def pySort (le : α → α → Bool) (l : List α) : List α :=
  l.foldl (fun acc x => pyInsert le x acc) []

/-- Fuelled worker for `pySplitOn`. -/
def splitOnFuel (sep : Str) : Nat → Str → Str → List Str
  | 0, rest, acc => [acc.reverse ++ rest]
  | fuel + 1, s, acc =>
    if sep ≠ [] ∧ sep.isPrefixOf s then
      acc.reverse :: splitOnFuel sep fuel (s.drop sep.length) []
    else
      match s with
      | [] => [acc.reverse]
      | c :: cs => splitOnFuel sep fuel cs (c :: acc)

/-- Python `s.split(sep)` for a non-empty separator (for an empty
separator Python raises; this model returns `[s]`, a case never reached
by the embedded code). -/
def pySplitOn (sep s : Str) : List Str :=
  if sep = [] then [s] else splitOnFuel sep (s.length + 1) s []

/-- Python `sep in s` (substring containment) for non-empty `sep`. -/
def containsSub (s sep : Str) : Bool :=
  if sep = [] then true else (pySplitOn sep s).length ≠ 1

/-- Fuelled worker for `pyReplace`. -/
def replaceFuel (old new : Str) : Nat → Str → Str
  | 0, s => s
  | fuel + 1, s =>
    if old ≠ [] ∧ old.isPrefixOf s then
      new ++ replaceFuel old new fuel (s.drop old.length)
    else
      match s with
      | [] => []
      | c :: cs => c :: replaceFuel old new fuel cs

/-- Python `s.replace(old, new)` for non-empty `old`. -/
def pyReplace (s old new : Str) : Str :=
  if old = [] then s else replaceFuel old new (s.length + 1) s

/-- Python `"sep".join(parts)`. -/
def pyJoin (sep : Str) (parts : List Str) : Str := List.intercalate sep parts

/-- Python `s.splitlines()` for LF-only input (the embedded code only
applies it after normalizing line endings to LF): split on `\n` and drop
the trailing empty piece. -/
def pySplitlines (s : Str) : List Str :=
  let l := pySplitOn (pys "\n") s
  match l.getLast? with
  | some [] => l.dropLast
  | _ => l

/-- Fuelled worker for `pyWords`. -/
def pyWordsFuel : Nat → Str → List Str
  | 0, _ => []
  | fuel + 1, s =>
    let s1 := s.dropWhile Char.isWhitespace
    match s1 with
    | [] => []
    | _ :: _ =>
      let tok := s1.takeWhile (fun c => !(Char.isWhitespace c))
      tok :: pyWordsFuel fuel (s1.drop tok.length)

/-- Python `s.split()` with no argument: maximal runs of non-whitespace. -/
def pyWords (s : Str) : List Str := pyWordsFuel (s.length + 1) s

/-- Python `str(n)` for a natural number. -/
def natStr (n : Nat) : Str := (toString n).toList

/-- Python `str(n)` for an integer. -/
def intStr (n : Int) : Str := (toString n).toList

/-! ## Data model (`src/ambient/types.py`)

`Proposal` attributes as in the dataclass; `risk_level` is kept as a
string exactly as the source stores it (construction-time validation is
not needed by any claim). -/

structure Proposal where
  agent : Str
  title : Str
  description : Str
  diff : Str
  risk_level : Str
  rationale : Str
  files_touched : List Str
  estimated_loc_change : Int
  tags : List Str
deriving DecidableEq, Repr

/-! ## Risk evaluator (`src/ambient/risk.py`) -/

/-- `RiskPolicyConfig` fields used by `assess_risk` (`src/ambient/config.py`). -/
structure RiskPolicyConfig where
  auto_apply : List Str
  require_approval : List Str
  file_change_limit : Int
  loc_change_limit : Int
deriving DecidableEq, Repr

/-- `SENSITIVE_FILE_PATTERNS` from `risk.py`. -/
def SENSITIVE_FILE_PATTERNS : List Str :=
  [pys ".env", pys "secret", pys "password", pys "credentials", pys "api_key",
   pys "private_key", pys "auth", pys "payment", pys "billing", pys "database",
   pys "config/production"]

/-- `_check_sensitive_files`: files whose lowercased path contains any
sensitive pattern, in input order. -/
def check_sensitive_files (files : List Str) : List Str :=
  files.filter (fun f => SENSITIVE_FILE_PATTERNS.any (fun pat => containsSub (pyLower f) pat))

/-- High-risk tags hard-coded in `assess_risk`. -/
def high_risk_tags : List Str :=
  [pys "security", pys "auth", pys "authentication", pys "payment", pys "billing",
   pys "database"]

/-- Return record of `assess_risk`. -/
structure RiskAssessment where
  requires_approval : Bool
  risk_factors : List Str
  auto_apply_eligible : Bool
  risk_score : Nat
deriving DecidableEq, Repr

/-- The `risk_factors` list accumulated by `assess_risk`, in source
order: policy risk level, file count, LOC change, sensitive files,
high-risk tags. -/
def risk_factors_of (p : Proposal) (policy : RiskPolicyConfig) : List Str :=
  let rf0 : List Str :=
    if p.risk_level ∈ policy.require_approval then
      [pys "Risk level: " ++ p.risk_level] else []
  let rf1 : List Str := rf0 ++
    (if (p.files_touched.length : Int) > policy.file_change_limit then
      [pys "Too many files: " ++ natStr p.files_touched.length ++ pys " > " ++
        intStr policy.file_change_limit] else [])
  let rf2 : List Str := rf1 ++
    (if (p.estimated_loc_change.natAbs : Int) > policy.loc_change_limit then
      [pys "Large change: " ++ natStr p.estimated_loc_change.natAbs ++ pys " LOC > " ++
        intStr policy.loc_change_limit] else [])
  let sensitive := check_sensitive_files p.files_touched
  let rf3 : List Str := rf2 ++
    (if sensitive ≠ [] then [pys "Sensitive files: " ++ pyJoin (pys ", ") sensitive] else [])
  let risky := p.tags.filter (fun t => pyLower t ∈ high_risk_tags)
  let rf4 : List Str := rf3 ++
    (if risky ≠ [] then [pys "High-risk tags: " ++ pyJoin (pys ", ") risky] else [])
  rf4

/-- `assess_risk(proposal, policy)` from `risk.py` (the optional
`repo_path` argument is unused by the function body). -/
def assess_risk (p : Proposal) (policy : RiskPolicyConfig) : RiskAssessment :=
  let rf := risk_factors_of p policy
  { requires_approval := rf.length > 0
    risk_factors := rf
    auto_apply_eligible := !(rf.length > 0 : Bool) && p.risk_level ∈ policy.auto_apply
    risk_score := rf.length }

/-! ## Secret redaction (`src/ambient/salvaged/redaction.py`)

The four `_PATTERNS` regular-expression substitutions are modelled as an
arbitrary function `sub : Str → Str` (the chained `pat.sub(repl, out)`
applications); every theorem about `redact_text` quantifies over `sub`,
so it holds in particular for the concrete pattern set. -/

/-- The truncation marker appended by `redact_text`. -/
def truncationSuffix : Str := pys "...(truncated)"

/-- `redact_text(s, max_len)`: empty in, empty out; otherwise apply the
pattern substitutions, strip, and truncate to `max_len` characters plus
the marker. -/
def redact_text (sub : Str → Str) (s : Str) (max_len : Nat) : Str :=
  if s = [] then []
  else
    let out := pyTrim (sub s)
    if out.length > max_len then out.take max_len ++ truncationSuffix else out

/-! ## Webhook approval (`src/ambient/approval.py`, `WebhookApprovalHandler.request_approval`)

The HTTP exchange is modelled by its observable outcome: either the POST
raised, or a response arrived with a status code and a body that either
failed to parse as JSON or yielded some value for the `approved` field. -/

/-- The value found at `data.get("approved", False)` after a successful
JSON parse; `absent` is the missing-key case (Python default `False`),
`null` is JSON `null`, `other` is any value that is none of bool, null,
str, int. -/
inductive ApprovedField where
  | absent : ApprovedField
  | bool : Bool → ApprovedField
  | null : ApprovedField
  | str : Str → ApprovedField
  | int : Int → ApprovedField
  | other : ApprovedField
deriving DecidableEq, Repr

/-- Outcome of the webhook POST: a raised exception (network error or
timeout), or a response with a status code and, when the body parses as
JSON, the `approved` field value. -/
inductive WebhookOutcome where
  | netError : WebhookOutcome
  | response : Int → Option ApprovedField → WebhookOutcome
deriving DecidableEq, Repr

/-- String values `request_approval` accepts as affirmative. -/
def approvalYesStrings : List Str :=
  [pys "true", pys "1", pys "yes", pys "y", pys "approve", pys "approved"]

/-- String values `request_approval` maps to an explicit rejection. -/
def approvalNoStrings : List Str :=
  [pys "false", pys "0", pys "no", pys "n", pys "reject", pys "rejected", pys ""]

/-- `WebhookApprovalHandler.request_approval`, reduced to its decision on
the webhook outcome (the request payload does not influence the returned
boolean). -/
def webhook_request_approval (o : WebhookOutcome) : Bool :=
  match o with
  | .netError => false
  | .response status body =>
    if status ≠ 200 then false
    else
      match body with
      | none => false
      | some av =>
        match av with
        | .bool true => true
        | .bool false => false
        | .null => false
        | .absent => false
        | .str s =>
          let val := pyLower (pyTrim s)
          if val ∈ approvalYesStrings then true
          else if val ∈ approvalNoStrings then false
          else false
        | .int n => n == 1
        | .other => false

/-- The spec-side enumeration of recognized affirmative outcomes: status
200, parsed body, and `approved` equal to boolean true, an affirmative
string literal (after strip and lowercasing), or integer 1. -/
def recognizedAffirmative (o : WebhookOutcome) : Bool :=
  match o with
  | .response status (some av) =>
    if status = 200 then
      match av with
      | .bool b => b
      | .str s => pyLower (pyTrim s) ∈ approvalYesStrings
      | .int n => n == 1
      | _ => false
    else false
  | _ => false

/-! ## Path safety (`src/ambient/salvaged/safe_paths.py`)

Paths are modelled as their component lists (the `parts` of a `pathlib`
path, without the leading `/` sentinel). Operating-system
canonicalization — `Path.resolve()`, which eliminates `.`/`..` and
follows symlinks — is an arbitrary function `resolve` from raw component
lists to canonical component lists; theorems quantify over it.
`p.parents` of `pathlib` are exactly the proper prefixes of the
component list, so `root != p and root not in p.parents` is the negation
of `root` being a (proper or improper) prefix of `p`. -/

/-- `FORBIDDEN_COMPONENTS` from `safe_paths.py`. -/
def FORBIDDEN_COMPONENTS : List Str :=
  [pys ".git", pys ".env", pys ".ssh", pys ".swarmguard_secrets"]

/-- `safe_resolve(root, rel_path)`; `ValueError` is modelled as `Except.error`
with the message of the raised exception. -/
def safe_resolve (resolve : List Str → List Str) (rootRaw : List Str) (rel_path : Str) :
    Except Str (List Str) :=
  let root := resolve rootRaw
  if pyStartsWith rel_path (pys "/") then
    .error (pys "Absolute paths not allowed")
  else
    let p := resolve (root ++ pySplitOn (pys "/") rel_path)
    if !(root.isPrefixOf p) then
      .error (pys "Path escapes repo root")
    else
      match p.find? (fun part => part ∈ FORBIDDEN_COMPONENTS) with
      | some part => .error (pys "Forbidden path component: " ++ part)
      | none => .ok p

/-! ## Sandbox runner (`src/ambient/salvaged/sandbox.py`)

The runner configuration mirrors the constructor arguments that influence
`run`. Process execution, regular-expression matching (`re.fullmatch` for
the legacy allowlist), `shlex.join`, environment variables and the
filesystem-dependent mount computation are abstract parameters collected
in `SandboxEnv`. Wall-clock timing (`duration_s`) is not modelled. The
returned record carries `invoked`, the list of argv vectors handed to
`subprocess.run`, so that "never invokes the runtime or the command" is
expressible. -/

structure SandboxRunner where
  image : Str
  network : Str
  fail_run : Bool
  stub : Bool
  memory : Str
  cpus : Str
  pids_limit : Int
  allowed_argv : List (List Str)
  allowed_commands : List Str
  enforce_allowlist : Bool
  require_docker : Bool

structure ExecResult where
  exit_code : Int
  stdout : Str
  stderr : Str

structure SandboxEnv where
  /-- `AMBIENT_FAIL_SANDBOX_RUN == "1"` or `SWARMGUARD_FAIL_SANDBOX_RUN == "1"`. -/
  forceFailEnv : Bool
  /-- `AMBIENT_SANDBOX_STUB == "1"` or `SWARMGUARD_SANDBOX_STUB == "1"`. -/
  stubEnv : Bool
  /-- `re.fullmatch(pattern, s)` succeeds. -/
  regexFullmatch : Str → Str → Bool
  /-- `shlex.join(argv)`. -/
  shlexJoin : List Str → Str
  /-- Whether the docker binary is on PATH (`FileNotFoundError` otherwise). -/
  dockerOnPath : Bool
  /-- Outcome of `subprocess.run(argv)` in stub mode. -/
  execLocal : List Str → ExecResult
  /-- Outcome of `subprocess.run(docker_cmd)`. -/
  execDocker : List Str → ExecResult
  /-- The `-v`/`-w` mount arguments computed by `_docker_mounts`. -/
  dockerMounts : List Str

/-- Result of `SandboxRunner.run`; the dict keys `rejected` and
`reject_reason` are only present on the rejection path, modelled as
`rejected = false` / `reject_reason = none` elsewhere. `invoked` is the
audit list of argv vectors passed to `subprocess.run`. -/
structure RunOut where
  argv : List Str
  exit_code : Int
  stdout : Str
  stderr : Str
  rejected : Bool
  reject_reason : Option Str
  invoked : List (List Str)

/-- An argv element containing `\n`, `\r` or `\x00`. -/
def hasCtlChar (a : Str) : Bool := a.contains '\n' || a.contains '\r' || a.contains '\x00'

/-- `SandboxRunner._check_argv_allowed`. -/
def check_argv_allowed (env : SandboxEnv) (r : SandboxRunner) (argv : List Str) :
    Bool × Str :=
  if argv = [] then (false, pys "Empty argv")
  else if argv.any hasCtlChar then (false, pys "Newlines/NUL not allowed")
  else if r.enforce_allowlist then
    if r.allowed_argv = [] ∧ r.allowed_commands = [] then
      (false, pys "Allowlist enforcement enabled but allowlist is empty")
    else if r.allowed_argv.any (fun allowed => allowed ≠ [] ∧ argv.take allowed.length = allowed) then
      (true, [])
    else if r.allowed_commands ≠ [] ∧
        r.allowed_commands.any (fun pat => env.regexFullmatch pat (env.shlexJoin argv)) then
      (true, [])
    else (false, pys "Command not in allowlist")
  else (true, [])

/-- The fixed flags of the `docker run` command built by `run`. -/
def dockerBaseFlags (r : SandboxRunner) : List Str :=
  [pys "docker", pys "run", pys "--rm", pys "--init",
   pys "--network", r.network, pys "--memory", r.memory, pys "--cpus", r.cpus,
   pys "--pids-limit", intStr r.pids_limit,
   pys "--read-only", pys "--cap-drop=ALL", pys "--security-opt=no-new-privileges",
   pys "--tmpfs", pys "/tmp:rw,noexec,nosuid,nodev,size=256m",
   pys "--tmpfs", pys "/var/tmp:rw,noexec,nosuid,nodev,size=128m",
   pys "--ulimit", pys "nofile=1024:1024", pys "--ulimit", pys "nproc=256:256",
   pys "-e", pys "HOME=/tmp", pys "-e", pys "XDG_CACHE_HOME=/tmp/xdg-cache"]

/-- `SandboxRunner.run(argv, env=envOverrides)`. -/
def SandboxRunner.run (env : SandboxEnv) (r : SandboxRunner) (argv : List Str)
    (envOverrides : List (Str × Str)) : RunOut :=
  if r.fail_run || env.forceFailEnv then
    { argv, exit_code := 1, stdout := [],
      stderr := pys "Forced sandbox failure via AMBIENT_FAIL_SANDBOX_RUN",
      rejected := false, reject_reason := none, invoked := [] }
  else
    match check_argv_allowed env r argv with
    | (false, reason) =>
      { argv, exit_code := 126, stdout := [],
        stderr := pys "Sandbox rejected command: " ++ reason,
        rejected := true, reject_reason := some reason, invoked := [] }
    | (true, _) =>
      if r.stub || env.stubEnv then
        let p := env.execLocal argv
        { argv, exit_code := p.exit_code, stdout := p.stdout, stderr := p.stderr,
          rejected := false, reject_reason := none, invoked := [argv] }
      else if r.require_docker ∧ !env.dockerOnPath then
        { argv, exit_code := 127, stdout := [],
          stderr := pys "Docker is required but was not found on PATH",
          rejected := false, reject_reason := none,
          invoked := [[pys "docker", pys "--version"]] }
      else
        let docker_cmd :=
          dockerBaseFlags r ++
          (envOverrides.flatMap (fun kv => [pys "-e", kv.1 ++ pys "=" ++ kv.2])) ++
          env.dockerMounts ++ [r.image] ++ argv
        if !env.dockerOnPath then
          { argv, exit_code := 127, stdout := [],
            stderr := pys "Docker is required but was not found on PATH",
            rejected := false, reject_reason := none,
            invoked := (if r.require_docker then [[pys "docker", pys "--version"]] else []) ++
              [docker_cmd] }
        else
          let p := env.execDocker docker_cmd
          { argv, exit_code := p.exit_code, stdout := p.stdout, stderr := p.stderr,
            rejected := false, reject_reason := none,
            invoked := (if r.require_docker then [[pys "docker", pys "--version"]] else []) ++
              [docker_cmd] }

/-! ## Cross-pollination (`src/ambient/cross_pollination.py`)

`hashlib.sha256(...).hexdigest()` over the diff bytes is modelled as an
arbitrary function `sha256hex : Str → Str`; identical diffs always get
identical digests (true of any function), which is all the claims use.
CPython iterates a `set` of small ints in ascending order, which the
adjacency model reproduces by keeping neighbour lists sorted ascending. -/

/-- `_RISK_WEIGHT.get(level, 0)`. -/
def RISK_WEIGHT (level : Str) : Int :=
  if level = pys "critical" then 40
  else if level = pys "high" then 30
  else if level = pys "medium" then 20
  else if level = pys "low" then 10
  else 0

/-- `_TAG_BONUS.get(tag, 0)`. -/
def TAG_BONUS (tag : Str) : Int :=
  if tag = pys "security" then 6
  else if tag = pys "auth" then 5
  else if tag = pys "test" then 4
  else if tag = pys "performance" then 4
  else if tag = pys "refactor" then 3
  else if tag = pys "style" then 1
  else 0

/-- `_proposal_score`. -/
def proposal_score (p : Proposal) : Int :=
  RISK_WEIGHT p.risk_level
    + (p.tags.map (fun t => TAG_BONUS (pyLower t))).sum
    - ((min p.estimated_loc_change.natAbs 500) / 25 : Nat)

/-- `_flatten_or_fallback(base_proposals, refined_lists)`. -/
def flatten_or_fallback (base : List Proposal) (refined_lists : List (List Proposal)) :
    List Proposal :=
  let flattened := refined_lists.flatten
  if flattened = [] then base else flattened

/-- The dedup key of `_dedupe`: agent lowered, title trimmed and lowered,
sorted files joined by commas, diff digest, joined by `|`. -/
def dedupeKey (sha256hex : Str → Str) (p : Proposal) : Str :=
  pyJoin (pys "|")
    [pyLower p.agent, pyLower (pyTrim p.title),
     pyJoin (pys ",") (pySort strLe p.files_touched),
     sha256hex p.diff]

/-- Worker for `_dedupe`: keep the first occurrence of each key. -/
def dedupeGo (sha256hex : Str → Str) (seen : List Str) : List Proposal → List Proposal
  | [] => []
  | p :: rest =>
    let key := dedupeKey sha256hex p
    if key ∈ seen then dedupeGo sha256hex seen rest
    else p :: dedupeGo sha256hex (key :: seen) rest

/-- `_dedupe(proposals)`. -/
def dedupe (sha256hex : Str → Str) (proposals : List Proposal) : List Proposal :=
  dedupeGo sha256hex [] proposals

/-- Non-empty intersection of two file sets. -/
def filesOverlap (a b : List Str) : Bool := a.any (fun x => x ∈ b)

/-- Ascending adjacency list of proposal `i`: indices whose file sets
intersect the file set of `i`. -/
def conflictAdj (fileSets : List (List Str)) (i : Nat) : List Nat :=
  (List.range fileSets.length).filter
    (fun j => j ≠ i ∧ filesOverlap (fileSets.getD i []) (fileSets.getD j []))

/-- Depth-first traversal with an explicit stack (head = top, matching
`list.pop()` from the end) collecting one connected component; `fuel`
bounds the loop and exceeds the number of possible pops. -/
def dfsComponent (adj : Nat → List Nat) : Nat → List Nat → List Nat → List Nat × List Nat
  | 0, _, seen => ([], seen)
  | _ + 1, [], seen => ([], seen)
  | fuel + 1, cur :: stack, seen =>
    let newOnes := (adj cur).filter (fun n => n ∉ seen)
    let res := dfsComponent adj fuel (newOnes.reverse ++ stack) (seen ++ newOnes)
    (cur :: res.1, res.2)

/-- Worker for `_conflict_clusters`: scan roots `0..n-1` in order,
starting a traversal at every index not yet seen. -/
def clustersGo (adj : Nat → List Nat) (fuel : Nat) : List Nat → List Nat → List (List Nat)
  | [], _ => []
  | i :: rest, seen =>
    if i ∈ seen then clustersGo adj fuel rest seen
    else
      let res := dfsComponent adj fuel [i] (seen ++ [i])
      res.1 :: clustersGo adj fuel rest res.2

/-- `_conflict_clusters(proposals)`: connected components of the
file-overlap graph, as proposal lists. -/
def conflict_clusters (proposals : List Proposal) : List (List Proposal) :=
  if proposals = [] then []
  else
    let fileSets := proposals.map (fun p => p.files_touched)
    let adj := conflictAdj fileSets
    let n := proposals.length
    let idxClusters := clustersGo adj (n + 1) (List.range n) []
    idxClusters.map (fun comp => comp.filterMap (fun idx => proposals[idx]?))

/-- Boolean lexicographic comparison for the four-part winner key
`(-score, abs(loc_change), agent.lower(), title.lower())`. -/
def winnerKeyLe (a b : Int × Nat × Str × Str) : Bool :=
  if a.1 < b.1 then true
  else if b.1 < a.1 then false
  else if a.2.1 < b.2.1 then true
  else if b.2.1 < a.2.1 then false
  else if strLt a.2.2.1 b.2.2.1 then true
  else if strLt b.2.2.1 a.2.2.1 then false
  else strLe a.2.2.2 b.2.2.2

/-- Boolean lexicographic comparison for the final three-part sort key
`(-score, agent.lower(), title.lower())`. -/
def finalKeyLe (a b : Int × Str × Str) : Bool :=
  if a.1 < b.1 then true
  else if b.1 < a.1 then false
  else if strLt a.2.1 b.2.1 then true
  else if strLt b.2.1 a.2.1 then false
  else strLe a.2.2 b.2.2

/-- `_select_cluster_winners(clusters)`: singleton clusters pass through;
larger clusters are sorted by the winner key and the head is taken. An
empty cluster (never produced by `conflict_clusters`) contributes
nothing. -/
def select_cluster_winners (clusters : List (List Proposal)) : List Proposal :=
  clusters.filterMap (fun cluster =>
    match cluster with
    | [c] => some c
    | _ =>
      (pySort (fun p q =>
        winnerKeyLe
          (-proposal_score p, p.estimated_loc_change.natAbs, pyLower p.agent, pyLower p.title)
          (-proposal_score q, q.estimated_loc_change.natAbs, pyLower q.agent, pyLower q.title))
        cluster).head?)

/-- Result record of `advanced_cross_pollinate` (the metadata dict is
modelled by its four counters). -/
structure CrossPollinationResult where
  proposals : List Proposal
  round1_count : Nat
  round2_deduped_count : Nat
  conflict_cluster_count : Nat
  final_count : Nat
deriving DecidableEq, Repr

/-- `advanced_cross_pollinate(base_proposals, refined_lists)`: the
section-4.10 deterministic multi-round reducer. -/
def advanced_cross_pollinate (sha256hex : Str → Str)
    (base : List Proposal) (refined_lists : List (List Proposal)) :
    CrossPollinationResult :=
  let round1 := flatten_or_fallback base refined_lists
  let round2 := dedupe sha256hex round1
  let clusters := conflict_clusters round2
  let round3 := select_cluster_winners clusters
  let round4 := pySort (fun p q =>
      finalKeyLe (-proposal_score p, pyLower p.agent, pyLower p.title)
        (-proposal_score q, pyLower q.agent, pyLower q.title)) round3
  { proposals := round4
    round1_count := round1.length
    round2_deduped_count := round2.length
    conflict_cluster_count := clusters.length
    final_count := round4.length }

/-! ## Coordinator cross-pollination stage (`src/ambient/coordinator.py`)

`AmbientCoordinator._cross_pollinate` gathers each agents `refine`
output (results that raised are dropped upstream; the inputs here are
the surviving lists), flattens them, and falls back to the original
proposals when the flattened list is empty. -/

/-- `AmbientCoordinator._cross_pollinate`, lines 544-585: flatten the
refined lists; return the originals when the flattened list is empty. -/
def coordinator_cross_pollinate (proposals : List Proposal)
    (refined_lists : List (List Proposal)) : List Proposal :=
  let refined := refined_lists.flatten
  if refined = [] then proposals else refined

/-- The proposal-selection skeleton of `AmbientCoordinator._handle_event`
for one cycle: `none` when the cycle ends before reaching risk-priority
sorting (paused, no proposals, or throttled), otherwise the list handed
to `sort_by_risk_priority` at coordinator.py line 441. -/
def cycle_proposal_flow (paused throttled : Bool) (base : List Proposal)
    (refined_lists : List (List Proposal)) : Option (List Proposal) :=
  if paused then none
  else if base = [] then none
  else if throttled then none
  else some (coordinator_cross_pollinate base refined_lists)

/-! ## Patch engine (`src/ambient/salvaged/git_ops.py`)

The pure string helpers nested inside `git_apply_patch_atomic`
(`clean_patch`, `fix_hunk_counts`, `detect_strip_level`,
`extract_paths`) are embedded directly. The git subprocesses and the
in-process fallback applier are modelled by a `GitModel` over an
abstract working-tree state `σ`: `git apply --check` variants are pure
queries (a check never mutates), `git apply` and `git apply --3way`
return a success flag plus the resulting tree (`--3way` may mutate even
on failure), `git add` touches only the index (the tree state is
unchanged; only its success flag matters), and
`apply_unified_diff_fallback` may both mutate and fail. The scratch
files the engine writes outside tracked content (`.swarmguard/apply.patch`,
the debug bundle under `.swarmguard_artifacts/`) are not part of `σ`.
`git_reset_hard_clean` (`git reset --hard` + `git clean -fd`) restores
the committed state. -/

/-- Consume one-or-more whitespace characters (`\s+`). -/
def ws1 (cs : Str) : Option Str :=
  match cs.span Char.isWhitespace with
  | ([], _) => none
  | (_ :: _, rest) => some rest

/-- Digits of a decimal literal to a number. -/
def digitsToNat (ds : Str) : Nat :=
  ds.foldl (fun n c => n * 10 + (c.toNat - 48)) 0

/-- Consume the optional `,digits` of a hunk-range; when a comma is not
followed by a digit the optional group matches empty (the comma is left
for the following `\s+` to reject). -/
def parseOptCount : Str → Str
  | ',' :: r =>
    match r.span Char.isDigit with
    | ([], _) => ',' :: r
    | (_ :: _, rest) => rest
  | cs => cs

/-- `re.match` of `@@\s+-(\d+)(?:,(\d+))?\s+\+(\d+)(?:,(\d+))?\s+@@`
against a line, returning the old and new start lines (groups 1 and 3,
the only ones `fix_hunk_counts` uses). -/
def parseHunkHeader (line : Str) : Option (Nat × Nat) :=
  match line with
  | '@' :: '@' :: rest =>
    match ws1 rest with
    | none => none
    | some r1 =>
      match r1 with
      | '-' :: r2 =>
        match r2.span Char.isDigit with
        | ([], _) => none
        | (d1, r3) =>
          match ws1 (parseOptCount r3) with
          | none => none
          | some r5 =>
            match r5 with
            | '+' :: r6 =>
              match r6.span Char.isDigit with
              | ([], _) => none
              | (d3, r7) =>
                match ws1 (parseOptCount r7) with
                | none => none
                | some r9 =>
                  match r9 with
                  | '@' :: '@' :: _ => some (digitsToNat d1, digitsToNat d3)
                  | _ => none
            | _ => none
      | _ => none
  | _ => none

/-- A line that terminates the body scan of `fix_hunk_counts`. -/
def hunkBoundary (l : Str) : Bool :=
  pyStartsWith l (pys "diff --git") || pyStartsWith l (pys "@@ ") ||
  pyStartsWith l (pys "--- ") || pyStartsWith l (pys "+++ ")

/-- Scan a hunk body: return (old count, new count, body lines, remaining
lines from the first boundary). -/
def countHunk : List Str → Nat × Nat × List Str × List Str
  | [] => (0, 0, [], [])
  | l :: ls =>
    if hunkBoundary l then (0, 0, [], l :: ls)
    else
      let r := countHunk ls
      if pyStartsWith l (pys "-") then (r.1 + 1, r.2.1, l :: r.2.2.1, r.2.2.2)
      else if pyStartsWith l (pys "+") then (r.1, r.2.1 + 1, l :: r.2.2.1, r.2.2.2)
      else (r.1 + 1, r.2.1 + 1, l :: r.2.2.1, r.2.2.2)

/-- Rebuild a hunk header with recounted lengths. -/
def hunkHeaderStr (oldStart oldCount newStart newCount : Nat) : Str :=
  pys "@@ -" ++ natStr oldStart ++ pys "," ++ natStr oldCount ++
  pys " +" ++ natStr newStart ++ pys "," ++ natStr newCount ++ pys " @@"

/-- Fuelled main loop of `fix_hunk_counts` over the line list; each
iteration consumes at least one line, so fuel `length + 1` is exact. -/
def fixHunkLoop : Nat → List Str → List Str
  | 0, lines => lines
  | _ + 1, [] => []
  | fuel + 1, line :: rest =>
    if pyStartsWith line (pys "@@ ") then
      match parseHunkHeader line with
      | none => line :: fixHunkLoop fuel rest
      | some (oldStart, newStart) =>
        let r := countHunk rest
        hunkHeaderStr oldStart r.1 newStart r.2.1 :: (r.2.2.1 ++ fixHunkLoop fuel r.2.2.2)
    else line :: fixHunkLoop fuel rest

/-- `fix_hunk_counts(diff_text)`. -/
def fix_hunk_counts (diffText : Str) : Str :=
  let lines := pySplitlines diffText
  pyJoin (pys "\n") (fixHunkLoop (lines.length + 1) lines) ++ pys "\n"

/-- Python `s.split(sep, 1)[-1]`: everything after the first occurrence
of `sep`, or `s` itself when absent. -/
def afterFirst (sep s : Str) : Str :=
  match pySplitOn sep s with
  | [] => s
  | [_] => s
  | _ :: rest => pyJoin sep rest

/-- Python `s.rsplit(sep, 1)[0]`: everything before the last occurrence
of `sep`, or `s` itself when absent. -/
def beforeLast (sep s : Str) : Str :=
  let parts := pySplitOn sep s
  if parts.length ≤ 1 then s else pyJoin sep parts.dropLast

/-- Python `s[s.find(sub):]` when `sub` occurs in `s`, else `s`. -/
def fromFirst (sub s : Str) : Str :=
  match pySplitOn sub s with
  | [] => s
  | [_] => s
  | _ :: rest => sub ++ pyJoin sub rest

/-- `clean_patch(diff)`: normalize line endings, strip, unwrap a Markdown
fence, cut leading noise before the first `diff --git`, ensure a
trailing newline. -/
def clean_patch (diff : Str) : Str :=
  let cleaned := pyTrim (pyReplace (pyReplace diff (pys "\r\n") (pys "\n")) (pys "\r") (pys "\n"))
  let cleaned :=
    if pyStartsWith cleaned (pys "```") then
      pyTrim (beforeLast (pys "```") (afterFirst (pys "\n") cleaned))
    else cleaned
  let cleaned :=
    if containsSub cleaned (pys "diff --git") then pyTrim (fromFirst (pys "diff --git") cleaned)
    else cleaned
  if pyEndsWith cleaned (pys "\n") then cleaned else cleaned ++ pys "\n"

/-- `detect_strip_level(diff_text)`. -/
def detect_strip_level (diffText : Str) : Nat :=
  if containsSub diffText (pys "diff --git a/") || containsSub diffText (pys "\n--- a/")
  then 1 else 0

/-- Fold step collecting `b`-side paths from `diff --git` lines. -/
def extractFromGitLine (acc : List Str) (line : Str) : List Str :=
  if pyStartsWith line (pys "diff --git ") then
    let parts := pyWords line
    if parts.length < 4 then acc
    else
      let b := parts.getD 3 []
      let b := if pyStartsWith b (pys "b/") then b.drop 2 else b
      if b ∈ acc then acc else acc ++ [b]
  else acc

/-- Fold step collecting paths from `+++ ` lines. -/
def extractFromPlusLine (acc : List Str) (line : Str) : List Str :=
  if pyStartsWith line (pys "+++ ") then
    let p := pyTrim (line.drop 4)
    let p := if pyStartsWith p (pys "b/") then p.drop 2 else p
    if p ∈ acc then acc else acc ++ [p]
  else acc

/-- `extract_paths(diff_text)`. -/
def extract_paths (diffText : Str) : List Str :=
  let lines := pySplitlines diffText
  let fromGit := lines.foldl extractFromGitLine []
  if fromGit ≠ [] then fromGit
  else lines.foldl extractFromPlusLine []

/-- The argument of the staging step: `git add -- <paths>` when paths
were extracted, `git add -A` (`none`) otherwise. -/
def stagePathsArg (diffText : Str) : Option (List Str) :=
  let ps := extract_paths diffText
  if ps = [] then none else some ps

/-- Abstract git environment over a working-tree state `σ`. -/
structure GitModel (σ : Type) where
  /-- The committed (HEAD) tree: the state `git reset --hard` plus
  `git clean -fd` restores. -/
  committed : σ
  /-- `git apply --check -R -p<strip> <patch>` exits 0 (pure query). -/
  checkReverse : Nat → Str → σ → Bool
  /-- `git apply --check -p<strip> <patch>` exits 0 (pure query). -/
  checkForward : Nat → Str → σ → Bool
  /-- `git apply -p<strip> <patch>`: exit-0 flag and resulting tree. -/
  applyForward : Nat → Str → σ → Bool × σ
  /-- `git apply --3way -p<strip> <patch>`: exit-0 flag and resulting
  tree (a failed 3-way merge may leave conflict markers). -/
  apply3way : Nat → Str → σ → Bool × σ
  /-- `git add -- <paths>` / `git add -A` exits 0; the index is outside
  `σ`, so the tree is unchanged. -/
  addPaths : Option (List Str) → σ → Bool
  /-- `git diff --cached --stat` output. -/
  diffCachedStat : σ → Str
  /-- `apply_unified_diff_fallback(diff_text)`: written paths on success,
  `PatchApplyError` message on failure; either way the possibly mutated
  tree. -/
  fallbackApply : Str → σ → Except Str (List Str) × σ

/-- `git_reset_hard_clean(root)`. -/
def git_reset_hard_clean (g : GitModel σ) (_s : σ) : σ := g.committed

/-- Success payload of `apply_with_git` (`{"ok": True, "stat": …,
"status": "already_applied"?}`). -/
structure ApplyOkInfo where
  stat : Str
  already_applied : Bool
deriving Repr

/-- Return value of `git_apply_patch_atomic` (`{"ok", "stat", "stderr"}`). -/
structure ApplyResult where
  ok : Bool
  stat : Str
  stderr : Str
deriving Repr

/-- One strip-level iteration of the loop inside `apply_with_git`:
reverse check (already applied), forward check + forward apply, then
3-way apply; `Except.error` is a raised `PatchApplyError` from a failed
`git add`, `ok none` means fall through to the next strip level. The
second component is the tree after the iteration. -/
def tryStrip (g : GitModel σ) (diff : Str) (strip : Nat) (s : σ) :
    Except Str (Option ApplyOkInfo) × σ :=
  if g.checkReverse strip diff s then
    if g.addPaths (stagePathsArg diff) s then
      (.ok (some { stat := g.diffCachedStat s, already_applied := true }), s)
    else (.error (pys "git add failed"), s)
  else
    let fwd :=
      if g.checkForward strip diff s then g.applyForward strip diff s else (false, s)
    if fwd.1 then
      if g.addPaths (stagePathsArg diff) fwd.2 then
        (.ok (some { stat := g.diffCachedStat fwd.2, already_applied := false }), fwd.2)
      else (.error (pys "git add failed"), fwd.2)
    else
      let w3 := g.apply3way strip diff fwd.2
      if w3.1 then
        if g.addPaths (stagePathsArg diff) w3.2 then
          (.ok (some { stat := g.diffCachedStat w3.2, already_applied := false }), w3.2)
        else (.error (pys "git add failed"), w3.2)
      else (.ok none, w3.2)

/-- `apply_with_git(diff_text)`: both strip levels in order (detected,
then inverted), then the in-process fallback; every failure is a raised
`PatchApplyError` carried with the tree it left behind. -/
def apply_with_git (g : GitModel σ) (diff : Str) (s : σ) :
    Except Str ApplyOkInfo × σ :=
  let strip1 := detect_strip_level diff
  let strip2 := 1 - strip1
  match tryStrip g diff strip1 s with
  | (.error e, s1) => (.error e, s1)
  | (.ok (some r), s1) => (.ok r, s1)
  | (.ok none, s1) =>
    match tryStrip g diff strip2 s1 with
    | (.error e, s2) => (.error e, s2)
    | (.ok (some r), s2) => (.ok r, s2)
    | (.ok none, s2) =>
      match g.fallbackApply diff s2 with
      | (.error err, s3) => (.error err, s3)
      | (.ok paths, s3) =>
        if paths = [] then (.error (pys "empty patch after fallback"), s3)
        else if g.addPaths (some paths) s3 then
          (.ok { stat := g.diffCachedStat s3, already_applied := false }, s3)
        else (.error (pys "git add failed"), s3)

/-- The candidate loop of `git_apply_patch_atomic`: try the cleaned diff
and, when different, the hunk-count-repaired diff; when every candidate
raises `PatchApplyError`, the handler writes the debug bundle (outside
`σ`), resets the tree, and returns `ok = false` with the last error. -/
def apply_candidates (g : GitModel σ) (diff fixed : Str) (s1 : σ) : ApplyResult × σ :=
  match apply_with_git g diff s1 with
  | (.ok r, s2) => ({ ok := true, stat := r.stat, stderr := [] }, s2)
  | (.error e1, s2) =>
    if fixed ≠ diff then
      match apply_with_git g fixed s2 with
      | (.ok r, s3) => ({ ok := true, stat := r.stat, stderr := [] }, s3)
      | (.error e2, s3) =>
        ({ ok := false, stat := [], stderr := e2 }, git_reset_hard_clean g s3)
    else ({ ok := false, stat := [], stderr := e1 }, git_reset_hard_clean g s2)

/-- `git_apply_patch_atomic(root, unified_diff)`. `preferFallback` is
`SWARMGUARD_PATCH_PREFER_FALLBACK == "1"`; in that branch any error from
the fallback attempt is swallowed and the candidate loop proceeds on the
tree the attempt left behind. -/
def git_apply_patch_atomic (g : GitModel σ) (preferFallback : Bool)
    (unifiedDiff : Str) (s0 : σ) : ApplyResult × σ :=
  let diff := clean_patch unifiedDiff
  let pre : Option ApplyOkInfo × σ :=
    if preferFallback then
      match g.fallbackApply diff s0 with
      | (.ok paths, s1) =>
        if paths ≠ [] then
          if g.addPaths (some paths) s1 then
            (some { stat := g.diffCachedStat s1, already_applied := false }, s1)
          else (none, s1)
        else (none, s1)
      | (.error _, s1) => (none, s1)
    else (none, s0)
  match pre with
  | (some r, s1) => ({ ok := true, stat := r.stat, stderr := [] }, s1)
  | (none, s1) => apply_candidates g diff (fix_hunk_counts diff) s1

/-! ## Coordinator backoff state (`src/ambient/coordinator.py`,
`_apply_proposals`, direct mode)

The effect of one proposal iteration on the exponential-backoff scalars
`(_backoff_seconds, _backoff_until)` is a function of the boolean
outcomes of the apply, verify, staged-changes and commit steps.
`time.time()` at the update is the parameter `now`. Python
`self._backoff_seconds * 2 or 0` equals `seconds * 2` for every integer
(`or 0` only replaces a zero with zero). -/

structure BackoffState where
  backoff_seconds : Int
  backoff_until : Int
deriving DecidableEq, Repr

/-- The failure update at coordinator.py lines 728-733 and 765-770:
`min(backoff_max, max(backoff_base, seconds * 2))`, then move
`backoff_until` forward when the new value is non-zero. -/
def backoff_bump (base maxS now : Int) (st : BackoffState) : BackoffState :=
  let s := min maxS (max base (st.backoff_seconds * 2))
  { backoff_seconds := s
    backoff_until := if s ≠ 0 then now + s else st.backoff_until }

/-- Backoff effect of one direct-mode proposal iteration: bump on apply
failure, bump on verify failure, reset to zero only after a successful
commit inside the `commit_on_success`-and-has-staged-changes branch
(coordinator.py lines 806-843); every other path leaves the state
untouched. -/
def proposal_backoff_step (base maxS : Int) (commit_on_success : Bool)
    (applyOk verifyOk hasStaged commitOk : Bool) (now : Int)
    (st : BackoffState) : BackoffState :=
  if !applyOk then backoff_bump base maxS now st
  else if !verifyOk then backoff_bump base maxS now st
  else if commit_on_success && hasStaged && commitOk then
    { backoff_seconds := 0, backoff_until := 0 }
  else st

/-! ## Concrete instances used for witnesses and counterexamples -/

/-- A minimal concrete proposal. -/
def pStyle : Proposal :=
  { agent := pys "StyleEnforcer", title := pys "Tidy imports", description := []
    diff := pys "d", risk_level := pys "low", rationale := []
    files_touched := [pys "a.py"], estimated_loc_change := 1, tags := [] }

/-- Stand-in for `hashlib.sha256(diff).hexdigest()`; the concrete inputs
below give it only equal diffs, for which any function (the real SHA-256
included) returns equal digests, which is all the dedup key compares. -/
def sha256hexStub : Str → Str := fun _ => pys "h"

/-- A concrete sandbox environment with inert collaborators. -/
def envPlain : SandboxEnv :=
  { forceFailEnv := false, stubEnv := false
    regexFullmatch := fun _ _ => false
    shlexJoin := fun _ => []
    dockerOnPath := true
    execLocal := fun _ => { exit_code := 0, stdout := [], stderr := [] }
    execDocker := fun _ => { exit_code := 0, stdout := [], stderr := [] }
    dockerMounts := [] }

/-- A runner in forced-failure test mode with enforcement on. -/
def runnerForcedFail : SandboxRunner :=
  { image := pys "img", network := pys "none", fail_run := true, stub := true
    memory := pys "2g", cpus := pys "2.0", pids_limit := 100
    allowed_argv := [[pys "pytest"]], allowed_commands := []
    enforce_allowlist := true, require_docker := false }

/-- A runner with allowlist enforcement on and both allowlists empty. -/
def runnerEmptyAllowlist : SandboxRunner :=
  { image := pys "img", network := pys "none", fail_run := false, stub := true
    memory := pys "2g", cpus := pys "2.0", pids_limit := 100
    allowed_argv := [], allowed_commands := []
    enforce_allowlist := true, require_docker := false }

/-- A git model over `σ := Nat` in which every strategy fails: checks
fail, applies fail without mutating, the fallback raises a context
mismatch. -/
def gitAllFail : GitModel Nat :=
  { committed := 0
    checkReverse := fun _ _ _ => false
    checkForward := fun _ _ _ => false
    applyForward := fun _ _ s => (false, s)
    apply3way := fun _ _ s => (false, s)
    addPaths := fun _ _ => false
    diffCachedStat := fun _ => []
    fallbackApply := fun _ s => (.error (pys "hunk context mismatch"), s) }

/-- A git model over `σ := Nat` in which the reverse-apply check always
reports the diff as already applied and staging succeeds. -/
def gitAlreadyApplied : GitModel Nat :=
  { committed := 0
    checkReverse := fun _ _ _ => true
    checkForward := fun _ _ _ => false
    applyForward := fun _ _ s => (false, s)
    apply3way := fun _ _ s => (false, s)
    addPaths := fun _ _ => true
    diffCachedStat := fun _ => []
    fallbackApply := fun _ s => (.error (pys "hunk context mismatch"), s) }

/-- A concrete resolver for the path-safety witness: canonicalization
that removes `.` components and resolves `..` against the prefix
(no symlinks), matching `Path.resolve` on a symlink-free tree. -/
def plainResolve (parts : List Str) : List Str :=
  parts.foldl (fun acc part =>
    if part = [] ∨ part = pys "." then acc
    else if part = pys ".." then acc.dropLast
    else acc ++ [part]) []

/-- The default risk policy of `RiskPolicyConfig` in `config.py`. -/
def defaultRiskPolicy : RiskPolicyConfig :=
  { auto_apply := [pys "low", pys "medium"]
    require_approval := [pys "high", pys "critical"]
    file_change_limit := 10, loc_change_limit := 500 }

/-! ## Theorems -/

/-- C4. For every proposal P and risk policy Q, `assess_risk(P, Q)`
returns `requires_approval` true iff the list of risk factors is
non-empty, returns `auto_apply_eligible` true iff `requires_approval` is
false and the risk level of P is in `Q.auto_apply` (hence
`auto_apply_eligible` implies not `requires_approval`), and returns
`risk_score` equal to the number of risk factors. -/
theorem assess_risk_spec (p : Proposal) (q : RiskPolicyConfig) :
    ((assess_risk p q).requires_approval = true ↔ (assess_risk p q).risk_factors ≠ []) ∧
    ((assess_risk p q).auto_apply_eligible = true ↔
      ((assess_risk p q).requires_approval = false ∧ p.risk_level ∈ q.auto_apply)) ∧
    ((assess_risk p q).auto_apply_eligible = true → (assess_risk p q).requires_approval = false) ∧
    (assess_risk p q).risk_score = (assess_risk p q).risk_factors.length := by
  unfold assess_risk
  generalize risk_factors_of p q = l
  refine ⟨?_, ?_, ?_, rfl⟩
  · cases l <;> simp
  · cases l <;> simp
  · cases l <;> simp

/-- Witness for `assess_risk_spec` at the concrete low-risk proposal and
the default policy, discharging the implication conjunct. -/
theorem assess_risk_spec_witness :
    (assess_risk pStyle defaultRiskPolicy).auto_apply_eligible = true →
      (assess_risk pStyle defaultRiskPolicy).requires_approval = false :=
  (assess_risk_spec pStyle defaultRiskPolicy).2.2.1

/-- C10. For every substitution pass, input string and positive
`max_len` m, `redact_text` returns the empty string on empty input, and
otherwise a string of length at most m + 14; when the redacted and
stripped text is longer than m the result is exactly m characters plus
the 14-character `...(truncated)` suffix. -/
theorem redact_text_length_spec (sub : Str → Str) (s : Str) (m : Nat) (hm : 0 < m) :
    (s = [] → redact_text sub s m = []) ∧
    (redact_text sub s m).length ≤ m + 14 ∧
    ((pyTrim (sub s)).length > m → s ≠ [] →
      (redact_text sub s m).length = m + 14) := by
  have hsuf : truncationSuffix.length = 14 := by decide
  refine ⟨fun hs => by simp [redact_text, hs], ?_, fun hlong hne => ?_⟩
  · unfold redact_text
    by_cases hs : s = []
    · simp [hs]
    · simp only [hs, if_false]
      by_cases hl : (pyTrim (sub s)).length > m
      · simp only [hl, if_true, List.length_append, List.length_take, hsuf]
        omega
      · simp only [hl, if_false]
        omega
  · unfold redact_text
    simp only [hne, if_false, hlong, if_true, List.length_append, List.length_take, hsuf]
    omega

/-- Witness for `redact_text_length_spec` at a concrete input: a
12-character string truncated to 3 characters plus the suffix. -/
theorem redact_text_length_spec_witness :
    (redact_text (fun x => x) (pys "hello world!") 3).length = 3 + 14 :=
  (redact_text_length_spec (fun x => x) (pys "hello world!") 3 (by decide)).2.2
    (by decide) (by decide)

/-- C6. For every webhook outcome, `WebhookApprovalHandler.request_approval`
returns false when the POST raises, when the status is not 200, when the
body fails to parse, or when `approved` is absent or unrecognized; it
returns true exactly for a recognized affirmative value (boolean true,
an affirmative string literal after strip and lowercasing, or integer 1,
in a parsed 200 response). -/
theorem webhook_request_approval_spec (o : WebhookOutcome) :
    webhook_request_approval o = recognizedAffirmative o := by
  cases o with
  | netError => rfl
  | response status body =>
    cases body with
    | none =>
      unfold webhook_request_approval recognizedAffirmative
      by_cases h : status = 200 <;> simp [h]
    | some av =>
      unfold webhook_request_approval recognizedAffirmative
      by_cases h : status = 200
      · cases av with
        | bool b => cases b <;> simp [h]
        | str s =>
          by_cases hy : pyLower (pyTrim s) ∈ approvalYesStrings
          · simp [h, hy]
          · by_cases hn : pyLower (pyTrim s) ∈ approvalNoStrings <;> simp [h, hy, hn]
        | _ => simp [h]
      · cases av <;> simp [h]

/-- C8. For every canonicalization function, repository root and
candidate relative path, `safe_resolve` raises exactly when the
candidate is absolute, or the canonicalized join with the resolved root
is not under the root, or a component of the resulting path is
forbidden; otherwise it returns the canonical absolute path under the
root with no forbidden component. -/
theorem safe_resolve_spec (resolve : List Str → List Str) (rootRaw : List Str) (rel : Str) :
    ((∃ e, safe_resolve resolve rootRaw rel = .error e) ↔
      (pyStartsWith rel (pys "/") = true ∨
        (resolve rootRaw).isPrefixOf
          (resolve (resolve rootRaw ++ pySplitOn (pys "/") rel)) = false ∨
        ∃ part ∈ resolve (resolve rootRaw ++ pySplitOn (pys "/") rel),
          part ∈ FORBIDDEN_COMPONENTS)) ∧
    (∀ q, safe_resolve resolve rootRaw rel = .ok q →
      q = resolve (resolve rootRaw ++ pySplitOn (pys "/") rel) ∧
      (resolve rootRaw).isPrefixOf q = true ∧
      ∀ part ∈ q, part ∉ FORBIDDEN_COMPONENTS) := by
  simp only [safe_resolve]
  by_cases h1 : pyStartsWith rel (pys "/") = true
  · simp [h1]
  · simp only [h1, if_false]
    by_cases h2 : (resolve rootRaw).isPrefixOf
        (resolve (resolve rootRaw ++ pySplitOn (pys "/") rel)) = true
    · simp only [h2, Bool.not_true, Bool.false_eq_true, if_false]
      cases hfind : (resolve (resolve rootRaw ++ pySplitOn (pys "/") rel)).find?
          (fun part => part ∈ FORBIDDEN_COMPONENTS) with
      | none =>
        have hnone := List.find?_eq_none.mp hfind
        constructor
        · constructor
          · rintro ⟨e, he⟩
            exact absurd he (by simp)
          · rintro (ha | hb | ⟨part, hmem, hforb⟩)
            · exact ha.elim
            · exact absurd hb (by simp)
            · exact absurd hforb (by simpa using hnone part hmem)
        · rintro q hq
          injection hq with hq
          subst hq
          exact ⟨rfl, h2, fun part hmem hforb => absurd hforb (by simpa using hnone part hmem)⟩
      | some part =>
        have hmem := List.mem_of_find?_eq_some hfind
        have hforb : part ∈ FORBIDDEN_COMPONENTS := by
          simpa using List.find?_some hfind
        constructor
        · constructor
          · intro _
            exact Or.inr (Or.inr ⟨part, hmem, hforb⟩)
          · intro _
            exact ⟨pys "Forbidden path component: " ++ part, rfl⟩
        · rintro q hq
          exact absurd hq (by simp)
    · have h2f : (resolve rootRaw).isPrefixOf
          (resolve (resolve rootRaw ++ pySplitOn (pys "/") rel)) = false := by
        cases hb : (resolve rootRaw).isPrefixOf
            (resolve (resolve rootRaw ++ pySplitOn (pys "/") rel)) with
        | false => rfl
        | true => exact absurd hb h2
      simp [h2f]

/-- Witness for `safe_resolve_spec`: a symlink-free resolver, root
`repo` and candidate `src/a.py` resolve to `repo/src/a.py` under the
root with no forbidden component. -/
theorem safe_resolve_spec_witness :
    ([pys "repo", pys "src", pys "a.py"] : List Str) =
      plainResolve (plainResolve [pys "repo"] ++ pySplitOn (pys "/") (pys "src/a.py")) ∧
    (plainResolve [pys "repo"]).isPrefixOf [pys "repo", pys "src", pys "a.py"] = true ∧
    ∀ part ∈ [pys "repo", pys "src", pys "a.py"], part ∉ FORBIDDEN_COMPONENTS :=
  (safe_resolve_spec plainResolve [pys "repo"] (pys "src/a.py")).2
    [pys "repo", pys "src", pys "a.py"] (by rfl)

/-- C2 (amended). With the forced-failure test hook disabled
(`fail_run` false and the forcing environment variables unset), every
argv containing `\n`, `\r` or `\x00` in some element is rejected with
`rejected = true`, exit code 126, no subprocess invocation, and the
control-character reject reason — whatever the allowlist settings. -/
theorem sandbox_ctl_rejected (env : SandboxEnv) (r : SandboxRunner) (argv : List Str)
    (envO : List (Str × Str)) (hf : r.fail_run = false) (he : env.forceFailEnv = false)
    (hc : argv.any hasCtlChar = true) :
    (SandboxRunner.run env r argv envO).rejected = true ∧
    (SandboxRunner.run env r argv envO).exit_code = 126 ∧
    (SandboxRunner.run env r argv envO).invoked = [] ∧
    (SandboxRunner.run env r argv envO).reject_reason =
      some (pys "Newlines/NUL not allowed") := by
  have hne : ¬(argv = []) := by rintro rfl; simp at hc
  have hchk : check_argv_allowed env r argv = (false, pys "Newlines/NUL not allowed") := by
    unfold check_argv_allowed
    simp [hne, hc]
  unfold SandboxRunner.run
  rw [hf, he]
  simp [hchk]

/-- C2 counterexample to the claim as stated: with the forced-failure
hook on (`fail_run = true`, a constructor argument of `SandboxRunner`),
an argv embedding a newline is answered with exit code 1 and no
`rejected` flag, before the control-character check runs. -/
theorem sandbox_ctl_claim_counterexample :
    ([pys "pytest", pys "-q\nuname -a"].any hasCtlChar = true) ∧
    (SandboxRunner.run envPlain runnerForcedFail
      [pys "pytest", pys "-q\nuname -a"] []).rejected = false ∧
    (SandboxRunner.run envPlain runnerForcedFail
      [pys "pytest", pys "-q\nuname -a"] []).exit_code = 1 := by
  decide

/-- Witness for `sandbox_ctl_rejected`: the spec scenario-8 argv
`["pytest", "-q\nuname -a"]` under an enforcing runner. -/
theorem sandbox_ctl_rejected_witness :
    (SandboxRunner.run envPlain runnerEmptyAllowlist
      [pys "pytest", pys "-q\nuname -a"] []).rejected = true ∧
    (SandboxRunner.run envPlain runnerEmptyAllowlist
      [pys "pytest", pys "-q\nuname -a"] []).exit_code = 126 ∧
    (SandboxRunner.run envPlain runnerEmptyAllowlist
      [pys "pytest", pys "-q\nuname -a"] []).invoked = [] ∧
    (SandboxRunner.run envPlain runnerEmptyAllowlist
      [pys "pytest", pys "-q\nuname -a"] []).reject_reason =
      some (pys "Newlines/NUL not allowed") :=
  sandbox_ctl_rejected envPlain runnerEmptyAllowlist
    [pys "pytest", pys "-q\nuname -a"] [] rfl rfl (by decide)

/-- C5 (amended). With the forced-failure hook disabled, allowlist
enforcement on and both allowlists empty, every `run(argv)` is rejected
(fail closed) with exit code 126 and no subprocess invocation; when the
argv is non-empty and free of control characters the reject reason is
the empty-allowlist message (for empty argv or control characters the
earlier checks give their own reasons). -/
theorem sandbox_empty_allowlist_fail_closed (env : SandboxEnv) (r : SandboxRunner)
    (argv : List Str) (envO : List (Str × Str))
    (hf : r.fail_run = false) (he : env.forceFailEnv = false)
    (hen : r.enforce_allowlist = true) (ha : r.allowed_argv = [])
    (hcmd : r.allowed_commands = []) :
    (SandboxRunner.run env r argv envO).rejected = true ∧
    (SandboxRunner.run env r argv envO).exit_code = 126 ∧
    (SandboxRunner.run env r argv envO).invoked = [] ∧
    (argv ≠ [] → argv.any hasCtlChar = false →
      (SandboxRunner.run env r argv envO).reject_reason =
        some (pys "Allowlist enforcement enabled but allowlist is empty")) := by
  by_cases hne : argv = []
  · subst hne
    have hchk : check_argv_allowed env r [] = (false, pys "Empty argv") := by
      unfold check_argv_allowed
      simp
    unfold SandboxRunner.run
    rw [hf, he]
    simp [hchk]
  · by_cases hctl : argv.any hasCtlChar = true
    · have h := sandbox_ctl_rejected env r argv envO hf he hctl
      exact ⟨h.1, h.2.1, h.2.2.1, fun _ hfalse => by simp [hctl] at hfalse⟩
    · have hctlf : argv.any hasCtlChar = false := by
        cases hb : argv.any hasCtlChar with
        | false => rfl
        | true => exact absurd hb hctl
      have hchk : check_argv_allowed env r argv =
          (false, pys "Allowlist enforcement enabled but allowlist is empty") := by
        unfold check_argv_allowed
        simp [hne, hctlf, hen, ha, hcmd]
      unfold SandboxRunner.run
      rw [hf, he]
      simp [hchk]

/-- C5 counterexample to the claim as stated: with enforcement on and an
empty allowlist, the empty argv is still rejected, but its reject reason
is the empty-argv message, not the empty-allowlist one. -/
theorem sandbox_empty_allowlist_counterexample :
    (SandboxRunner.run envPlain runnerEmptyAllowlist [] []).rejected = true ∧
    (SandboxRunner.run envPlain runnerEmptyAllowlist [] []).reject_reason =
      some (pys "Empty argv") ∧
    (pys "Empty argv") ≠ pys "Allowlist enforcement enabled but allowlist is empty" := by
  decide

/-- Witness for `sandbox_empty_allowlist_fail_closed` at `argv = ["ls"]`. -/
theorem sandbox_empty_allowlist_witness :
    (SandboxRunner.run envPlain runnerEmptyAllowlist [pys "ls"] []).rejected = true ∧
    (SandboxRunner.run envPlain runnerEmptyAllowlist [pys "ls"] []).exit_code = 126 ∧
    (SandboxRunner.run envPlain runnerEmptyAllowlist [pys "ls"] []).reject_reason =
      some (pys "Allowlist enforcement enabled but allowlist is empty") := by
  have h := sandbox_empty_allowlist_fail_closed envPlain runnerEmptyAllowlist
    [pys "ls"] [] rfl rfl rfl rfl rfl
  exact ⟨h.1, h.2.1, h.2.2.2 (by decide) (by decide)⟩

/-- C1 (amended). For every cycle that is neither paused nor throttled
and produces at least one proposal, the proposal list passed to
risk-priority sorting equals the flatten-with-fallback of the refined
lists (round 1 of the section-4.10 reducer); the dedupe, conflict
clustering, winner selection and score sort of
`advanced_cross_pollinate` are not applied by the coordinator. -/
theorem cycle_flow_is_flatten_or_fallback (paused throttled : Bool)
    (base : List Proposal) (refined_lists : List (List Proposal)) (l : List Proposal)
    (h : cycle_proposal_flow paused throttled base refined_lists = some l) :
    l = flatten_or_fallback base refined_lists := by
  unfold cycle_proposal_flow at h
  by_cases hp : paused = true
  · simp [hp] at h
  · simp only [hp, Bool.false_eq_true, if_false] at h
    by_cases hb : base = []
    · simp [hb] at h
    · simp only [hb, if_false] at h
      by_cases ht : throttled = true
      · simp [ht] at h
      · simp only [ht, Bool.false_eq_true, if_false, Option.some.injEq] at h
        subst h
        rfl

/-- C1 counterexample to the claim as stated: with one base proposal and
two refined lists both containing that proposal, the coordinator hands
the duplicate-preserving flattened list `[p, p]` to risk-priority
sorting, while the section-4.10 reducer dedupes it to `[p]`
(`advanced_cross_pollinate` is never invoked by
`AmbientCoordinator._cross_pollinate`). -/
theorem cycle_flow_claim_counterexample :
    cycle_proposal_flow false false [pStyle] [[pStyle], [pStyle]] =
      some [pStyle, pStyle] ∧
    (advanced_cross_pollinate sha256hexStub [pStyle] [[pStyle], [pStyle]]).proposals =
      [pStyle] ∧
    cycle_proposal_flow false false [pStyle] [[pStyle], [pStyle]] ≠
      some (advanced_cross_pollinate sha256hexStub [pStyle] [[pStyle], [pStyle]]).proposals := by
  refine ⟨by decide, by decide, by decide⟩

/-- Witness for `cycle_flow_is_flatten_or_fallback` at the concrete
counterexample cycle. -/
theorem cycle_flow_is_flatten_or_fallback_witness :
    ([pStyle, pStyle] : List Proposal) =
      flatten_or_fallback [pStyle] [[pStyle], [pStyle]] :=
  cycle_flow_is_flatten_or_fallback false false [pStyle] [[pStyle], [pStyle]]
    [pStyle, pStyle] (by decide)

/-- C9 (amended). In direct-apply mode, the backoff update on apply or
verification failure is `min(backoff_max, max(backoff_base, previous × 2))`
and is monotone whenever the previous value lies in `[0, backoff_max]`;
the reset of `(backoff_seconds, backoff_until)` to zero happens exactly
on the successful-commit path (`commit_on_success` configured, staged
changes present, commit succeeded) — a successful apply-and-verify
iteration without that commit leaves the backoff state unchanged. -/
theorem proposal_backoff_step_spec (base maxS : Int) (cos applyOk verifyOk hasStaged commitOk : Bool)
    (now : Int) (st : BackoffState) :
    ((applyOk = false ∨ verifyOk = false) →
      (proposal_backoff_step base maxS cos applyOk verifyOk hasStaged commitOk now st).backoff_seconds =
        min maxS (max base (st.backoff_seconds * 2))) ∧
    ((applyOk = false ∨ verifyOk = false) → 0 ≤ st.backoff_seconds →
      st.backoff_seconds ≤ maxS →
      st.backoff_seconds ≤
        (proposal_backoff_step base maxS cos applyOk verifyOk hasStaged commitOk now st).backoff_seconds) ∧
    (applyOk = true → verifyOk = true → cos = true → hasStaged = true → commitOk = true →
      proposal_backoff_step base maxS cos applyOk verifyOk hasStaged commitOk now st =
        { backoff_seconds := 0, backoff_until := 0 }) ∧
    (applyOk = true → verifyOk = true → (cos && hasStaged && commitOk) = false →
      proposal_backoff_step base maxS cos applyOk verifyOk hasStaged commitOk now st = st) := by
  refine ⟨?_, ?_, ?_, ?_⟩
  · rintro (ha | hv)
    · subst ha
      rfl
    · subst hv
      cases applyOk <;> rfl
  · rintro h h0 hmax
    have hb : (proposal_backoff_step base maxS cos applyOk verifyOk hasStaged commitOk now st).backoff_seconds =
        min maxS (max base (st.backoff_seconds * 2)) := by
      rcases h with ha | hv
      · subst ha
        rfl
      · subst hv
        cases applyOk <;> rfl
    rw [hb]
    have h2 : st.backoff_seconds ≤ st.backoff_seconds * 2 := by omega
    have h3 : st.backoff_seconds ≤ max base (st.backoff_seconds * 2) :=
      le_trans h2 (le_max_right _ _)
    exact le_min hmax h3
  · rintro rfl rfl rfl rfl rfl
    rfl
  · rintro rfl rfl hfalse
    unfold proposal_backoff_step
    simp [hfalse]

/-- C9 counterexample to the claim as stated: with `commit_on_success`
off, a proposal that applies and verifies successfully leaves the
backoff state at its previous non-zero value instead of resetting it to
zero. -/
theorem proposal_backoff_reset_counterexample :
    proposal_backoff_step 1 60 false true true true true 0
        { backoff_seconds := 10, backoff_until := 50 } =
      { backoff_seconds := 10, backoff_until := 50 } ∧
    ({ backoff_seconds := 10, backoff_until := 50 } : BackoffState) ≠
      { backoff_seconds := 0, backoff_until := 0 } := by
  decide

/-- Witness for `proposal_backoff_step_spec`: a verify failure at
previous backoff 4 with base 1 and max 60 doubles to 8. -/
theorem proposal_backoff_step_spec_witness :
    (proposal_backoff_step 1 60 true true false true true 100
        { backoff_seconds := 4, backoff_until := 0 }).backoff_seconds =
      min 60 (max 1 (4 * 2)) :=
  (proposal_backoff_step_spec 1 60 true true false true true 100
    { backoff_seconds := 4, backoff_until := 0 }).1 (Or.inr rfl)

/-- Helper for C3: the candidate loop either succeeds or leaves the
reset target behind. -/
theorem apply_candidates_ok_or_reset {σ : Type} (g : GitModel σ) (d f : Str) (s : σ) :
    (apply_candidates g d f s).1.ok = true ∨
    (apply_candidates g d f s).2 = g.committed := by
  unfold apply_candidates
  rcases h1 : apply_with_git g d s with ⟨res1, s2⟩
  cases res1 with
  | ok r => exact Or.inl rfl
  | error e1 =>
    dsimp only
    by_cases hfd : f ≠ d
    · rw [if_pos hfd]
      rcases h2 : apply_with_git g f s2 with ⟨res2, s3⟩
      cases res2 with
      | ok r => exact Or.inl rfl
      | error e2 => exact Or.inr rfl
    · rw [if_neg hfd]
      exact Or.inr rfl

/-- Helper for C3: the whole patch engine either succeeds or leaves the
reset target behind. -/
theorem git_apply_ok_or_reset {σ : Type} (g : GitModel σ) (pf : Bool) (d : Str) (s0 : σ) :
    (git_apply_patch_atomic g pf d s0).1.ok = true ∨
    (git_apply_patch_atomic g pf d s0).2 = g.committed := by
  unfold git_apply_patch_atomic
  cases pf with
  | false =>
    simpa using apply_candidates_ok_or_reset g (clean_patch d) (fix_hunk_counts (clean_patch d)) s0
  | true =>
    dsimp only
    rcases hfb : g.fallbackApply (clean_patch d) s0 with ⟨resF, s1⟩
    cases resF with
    | ok paths =>
      by_cases hp : paths = []
      · simpa [hp] using
          apply_candidates_ok_or_reset g (clean_patch d) (fix_hunk_counts (clean_patch d)) s1
      · by_cases hadd : g.addPaths (some paths) s1 = true
        · simp [hp, hadd]
        · have haddf : g.addPaths (some paths) s1 = false := by
            cases hb : g.addPaths (some paths) s1 with
            | false => rfl
            | true => exact absurd hb hadd
          simpa [hp, haddf] using
            apply_candidates_ok_or_reset g (clean_patch d) (fix_hunk_counts (clean_patch d)) s1
    | error e =>
      simpa using
        apply_candidates_ok_or_reset g (clean_patch d) (fix_hunk_counts (clean_patch d)) s1

/-- C3. For every git environment, fallback preference, diff text and
starting tree, when `git_apply_patch_atomic` returns `ok = false` the
tree it leaves behind is the one produced by `git_reset_hard_clean`
(the committed state); in particular, when the attempt started from the
committed state — the clean-worktree precondition the coordinator
enforces before applying — the tree afterwards equals its state before
the attempt. -/
theorem git_apply_patch_atomic_failure_restores {σ : Type} (g : GitModel σ) (pf : Bool)
    (d : Str) (s0 : σ) (h : (git_apply_patch_atomic g pf d s0).1.ok = false) :
    (git_apply_patch_atomic g pf d s0).2 = git_reset_hard_clean g s0 ∧
    (s0 = g.committed → (git_apply_patch_atomic g pf d s0).2 = s0) := by
  have main : (git_apply_patch_atomic g pf d s0).2 = g.committed := by
    rcases git_apply_ok_or_reset g pf d s0 with hok | hreset
    · rw [h] at hok
      exact absurd hok (by simp)
    · exact hreset
  exact ⟨main, fun hc => by rw [main, hc]⟩

/-- Witness for `git_apply_patch_atomic_failure_restores`: in a git
model where every strategy fails, applying from the committed tree fails
and leaves the committed tree in place. -/
theorem git_apply_patch_atomic_failure_restores_witness :
    (git_apply_patch_atomic gitAllFail false (pys "x") 0).2 = 0 :=
  (git_apply_patch_atomic_failure_restores gitAllFail false (pys "x") 0 (by decide)).2 rfl

/-- C7. For every git environment, diff text and tree on which the
reverse-apply check at the detected strip level reports the diff as
already applied (and staging succeeds, the normal git behaviour), the
patch engine without the fallback-preference hook returns `ok = true`
and leaves the working tree exactly as it was; hence applying a diff a
second time from the tree produced by the first application returns the
same final working tree. -/
theorem git_apply_already_applied_idempotent {σ : Type} (g : GitModel σ) (D : Str) (s : σ)
    (hrev : g.checkReverse (detect_strip_level (clean_patch D)) (clean_patch D) s = true)
    (hadd : g.addPaths (stagePathsArg (clean_patch D)) s = true) :
    (git_apply_patch_atomic g false D s).1.ok = true ∧
    (git_apply_patch_atomic g false D s).2 = s := by
  have hstrip : tryStrip g (clean_patch D) (detect_strip_level (clean_patch D)) s =
      (.ok (some { stat := g.diffCachedStat s, already_applied := true }), s) := by
    unfold tryStrip
    simp [hrev, hadd]
  have happ : apply_with_git g (clean_patch D) s =
      (.ok { stat := g.diffCachedStat s, already_applied := true }, s) := by
    unfold apply_with_git
    dsimp only
    rw [hstrip]
  have hcand : apply_candidates g (clean_patch D) (fix_hunk_counts (clean_patch D)) s =
      ({ ok := true, stat := g.diffCachedStat s, stderr := [] }, s) := by
    unfold apply_candidates
    rw [happ]
  unfold git_apply_patch_atomic
  simp only [Bool.false_eq_true, if_false]
  rw [hcand]
  exact ⟨rfl, rfl⟩

/-- Witness for `git_apply_already_applied_idempotent`: in a git model
whose reverse check reports already-applied, the engine succeeds without
touching tree state 7. -/
theorem git_apply_already_applied_idempotent_witness :
    (git_apply_patch_atomic gitAlreadyApplied false (pys "x") 7).1.ok = true ∧
    (git_apply_patch_atomic gitAlreadyApplied false (pys "x") 7).2 = 7 :=
  git_apply_already_applied_idempotent gitAlreadyApplied (pys "x") 7 rfl rfl
